import Mathlib

/-!
# socialapi/models: ChannelMessage

A shallow embedding of `go/src/socialapi/models/channelmessage.go`.

* Go pointers to structs are modelled by the struct value; a pointer result that may be
  `nil` is an `Option`.
* A Go slice is either `nil` or a sequence of elements (`Slice`).
* A Go `map[string]T` is an association list with unique keys (`GoMap`); a map that may be
  `nil` is an `Option (GoMap T)`.
* The persistence singleton `bongo.B` and the interaction lookup are external collaborators.
  They are parameters of every operation (`Env`), as state-passing functions over an
  arbitrary store state `σ`. A collaborator receives the entity by pointer, so it hands back
  the entity as it left it.
* Every collaborator call is recorded, with its arguments, in a ghost `trace`, so that
  "is called once / is not called" can be stated.
-/

namespace models

/-! ## Go values -/

/-- A Go `time.Time`, by its representation without a monotonic reading: `ext` is the
number of seconds since January 1, year 1, 00:00:00 UTC and `wall` the nanoseconds within
that second. The Go zero value has both fields 0, the instant 0001-01-01T00:00:00Z. -/
structure Time where
  wall : Nat
  ext : Int
deriving DecidableEq, Repr

/-- The zero `time.Time{}`: January 1, year 1, 00:00:00 UTC. -/
def Time.zero : Time := { wall := 0, ext := 0 }

/-- A Go `error` value, observed through its `Error()` text. -/
structure GoError where
  text : String
deriving DecidableEq, Repr

/-- The `Error()` method of an error value. -/
def GoError.Error (e : GoError) : String := e.text

/-- Go `errors.New`. -/
def errors.New (text : String) : GoError := { text := text }

/-- A Go slice: `nil`, or a (possibly empty) sequence of elements. -/
inductive Slice (α : Type) where
  | nil : Slice α
  | elems (xs : List α) : Slice α
deriving DecidableEq, Repr

/-- Go `len` on a slice. -/
def Slice.len {α : Type} : Slice α → Nat
  | Slice.nil => 0
  | Slice.elems xs => xs.length

/-- The elements of a slice, in order. -/
def Slice.toList {α : Type} : Slice α → List α
  | Slice.nil => []
  | Slice.elems xs => xs

/-- A non-nil Go `map[string]V`: an association list, one entry per key. -/
abbrev GoMap (V : Type) := List (String × V)

/-- Go `m[k]` with the comma-ok form: the value stored under `k`, if any. -/
def GoMap.get {V : Type} : GoMap V → String → Option V
  | [], _ => none
  | (k1, v) :: rest, k => if k1 = k then some v else GoMap.get rest k

/-- Go `m[k] = v`: replaces the entry for `k` if there is one, adds it otherwise. -/
def GoMap.set {V : Type} : GoMap V → String → V → GoMap V
  | [], k, v => [(k, v)]
  | (k1, v1) :: rest, k, v =>
    if k1 = k then (k, v) :: rest else (k1, v1) :: GoMap.set rest k v

/-- The keys of a map. -/
def GoMap.keys {V : Type} (m : GoMap V) : List String := m.map Prod.fst

/-- A Go `interface{}` value, as far as this file puts values into one. -/
inductive Value where
  | string (s : String) : Value
  | int64 (n : Int) : Value
  | time (t : Time) : Value
deriving DecidableEq, Repr

/-! ## Data model -/

/-- The `ChannelMessage` struct (`Type_` is the Go field `Type`). -/
structure ChannelMessage where
  Id : Int
  Body : String
  Type_ : String
  AccountId : Int
  InitialChannelId : Int
  CreatedAt : Time
  UpdatedAt : Time
deriving DecidableEq, Repr

def ChannelMessage_TYPE_POST : String := "post"
def ChannelMessage_TYPE_REPLY : String := "reply"
def ChannelMessage_TYPE_JOIN : String := "join"
def ChannelMessage_TYPE_LEAVE : String := "leave"
def ChannelMessage_TYPE_CHAT : String := "chat"

/-- The Go zero value `ChannelMessage{}`. -/
def ChannelMessage.zero : ChannelMessage :=
  { Id := 0, Body := "", Type_ := "", AccountId := 0, InitialChannelId := 0,
    CreatedAt := Time.zero, UpdatedAt := Time.zero }

/-- `NewChannelMessage`: a pointer to the zero value. -/
def NewChannelMessage : ChannelMessage := ChannelMessage.zero

def ChannelMessage.GetId (c : ChannelMessage) : Int := c.Id

def ChannelMessage.TableName (_c : ChannelMessage) : String := "channel_message"

/-- Modelled from the spec: the `InteractionContainer` struct, declared outside this file:
`Actors`, the ordered sequence of accounts that performed the interaction, and the
`IsInteracted` flag. -/
structure InteractionContainer where
  Actors : Slice Int
  IsInteracted : Bool
deriving DecidableEq, Repr

/-- Modelled from the spec: the `ChannelMessageContainer` struct, declared outside this file:
`Message`, a reference to one ChannelMessage (possibly nil), and `Interactions`, a (possibly
nil) map from interaction-kind name to a pointer to an `InteractionContainer`. -/
structure ChannelMessageContainer where
  Message : Option ChannelMessage
  Interactions : Option (GoMap (Option InteractionContainer))
deriving DecidableEq, Repr

/-- Modelled from the spec: the interaction query object, declared outside this file. Only
its `MessageId` field is used here; whatever else it holds is `rest`, of a type `ι` that is
left open. -/
structure Interaction (ι : Type) where
  MessageId : Int
  rest : ι
deriving DecidableEq, Repr

/-! ## Collaborators -/

/-- What a store operation taking the entity by pointer leaves behind. -/
structure StoreResult (σ : Type) where
  entity : ChannelMessage
  err : Option GoError
  store : σ

/-- What the store's bulk fetch leaves behind: the template, the result slice it was given
by pointer, its error and the store. -/
structure BulkResult (σ : Type) where
  entity : ChannelMessage
  messages : Slice ChannelMessage
  err : Option GoError
  store : σ

/-- What the interaction lookup returns: the actor list and the error, both of which it
returns whatever the other is. -/
structure ListResult (σ : Type) where
  actors : Slice Int
  err : Option GoError
  store : σ

/-- The persistence singleton `bongo.B`, as far as this file calls it. -/
structure Bongo (σ : Type) where
  Fetch : ChannelMessage → σ → StoreResult σ
  UpdatePartial : ChannelMessage → GoMap Value → σ → StoreResult σ
  Create : ChannelMessage → σ → StoreResult σ
  Delete : ChannelMessage → σ → StoreResult σ
  FetchByIds : ChannelMessage → Slice ChannelMessage → Slice Int → σ → BulkResult σ

/-- Everything `channelmessage.go` uses and does not define: the store `B`, the three
constructors of the package (each yields a freshly built, non-nil value) and the
interaction lookup `Interaction.List`. -/
structure Env (σ ι : Type) where
  B : Bongo σ
  NewChannelMessageContainer : ChannelMessageContainer
  NewInteraction : Interaction ι
  NewInteractionContainer : InteractionContainer
  List : Interaction ι → String → σ → ListResult σ

/-- One recorded collaborator call, with the arguments it was made with. -/
inductive Call (ι : Type) where
  | Fetch (c : ChannelMessage) : Call ι
  | UpdatePartial (c : ChannelMessage) (set : GoMap Value) : Call ι
  | Create (c : ChannelMessage) : Call ι
  | Delete (c : ChannelMessage) : Call ι
  | FetchByIds (c : ChannelMessage) (messages : Slice ChannelMessage) (ids : Slice Int) : Call ι
  | List (i : Interaction ι) (kind : String) : Call ι
deriving DecidableEq, Repr

/-- The state an operation runs in: the store, and the calls made so far (oldest first). -/
structure World (σ ι : Type) where
  store : σ
  trace : List (Call ι)

/-- The world after one more recorded call that left the store as `s`. -/
def World.record {σ ι : Type} (w : World σ ι) (call : Call ι) (s : σ) : World σ ι :=
  { store := s, trace := w.trace ++ [call] }

/-- Outcome of a method returning `error`. -/
structure ErrRet (σ ι : Type) where
  receiver : ChannelMessage
  err : Option GoError
  world : World σ ι

/-- Outcome of `FetchByIds`. -/
structure BulkRet (σ ι : Type) where
  receiver : ChannelMessage
  messages : Slice ChannelMessage
  err : Option GoError
  world : World σ ι

/-- Outcome of `FetchRelatives`. -/
structure RelativesRet (σ ι : Type) where
  receiver : ChannelMessage
  container : Option ChannelMessageContainer
  err : Option GoError
  world : World σ ι

/-! ## Operations -/

section Operations

variable {σ ι : Type}

/-- `func (c *ChannelMessage) Fetch() error`. -/
def ChannelMessage.Fetch (E : Env σ ι) (c : ChannelMessage) (w : World σ ι) : ErrRet σ ι :=
  let r := E.B.Fetch c w.store
  { receiver := r.entity, err := r.err, world := w.record (Call.Fetch c) r.store }

/-- `func (c *ChannelMessage) Update() error`. -/
def ChannelMessage.Update (E : Env σ ι) (c : ChannelMessage) (w : World σ ι) : ErrRet σ ι :=
  -- only update body
  let set : GoMap Value := [("body", Value.string c.Body)]
  let r := E.B.UpdatePartial c set w.store
  { receiver := r.entity, err := r.err, world := w.record (Call.UpdatePartial c set) r.store }

/-- `func (c *ChannelMessage) Create() error`. -/
def ChannelMessage.Create (E : Env σ ι) (c : ChannelMessage) (w : World σ ι) : ErrRet σ ι :=
  let r := E.B.Create c w.store
  { receiver := r.entity, err := r.err, world := w.record (Call.Create c) r.store }

/-- `func (c *ChannelMessage) Delete() error`. -/
def ChannelMessage.Delete (E : Env σ ι) (c : ChannelMessage) (w : World σ ι) : ErrRet σ ι :=
  let r := E.B.Delete c w.store
  { receiver := r.entity, err := r.err, world := w.record (Call.Delete c) r.store }

/-- `func (c *ChannelMessage) FetchByIds(ids []int64) ([]ChannelMessage, error)`. -/
def ChannelMessage.FetchByIds (E : Env σ ι) (c : ChannelMessage) (ids : Slice Int)
    (w : World σ ι) : BulkRet σ ι :=
  let messages : Slice ChannelMessage := Slice.nil
  if ids.len = 0 then
    { receiver := c, messages := messages, err := none, world := w }
  else
    let r := E.B.FetchByIds c messages ids w.store
    let w1 := w.record (Call.FetchByIds c messages ids) r.store
    match r.err with
    | some err => { receiver := r.entity, messages := Slice.nil, err := some err, world := w1 }
    | none => { receiver := r.entity, messages := r.messages, err := none, world := w1 }

/-- `func (c *ChannelMessage) FetchRelatives() (*ChannelMessageContainer, error)`. -/
def ChannelMessage.FetchRelatives (E : Env σ ι) (c : ChannelMessage) (w : World σ ι) :
    RelativesRet σ ι :=
  if c.Id = 0 then
    { receiver := c, container := none,
      err := some (errors.New "Channel message id is not set"), world := w }
  else
    let container := E.NewChannelMessageContainer
    let container := { container with Message := some c }
    let i := E.NewInteraction
    let i := { i with MessageId := c.Id }
    let r := E.List i "like" w.store
    let w1 := w.record (Call.List i "like") r.store
    match r.err with
    | some err => { receiver := c, container := none, err := some err, world := w1 }
    | none =>
      let interactionContainer := E.NewInteractionContainer
      let interactionContainer := { interactionContainer with Actors := r.actors }
      -- check this from database
      let interactionContainer := { interactionContainer with IsInteracted := true }
      let m0 : GoMap (Option InteractionContainer) :=
        match container.Interactions with
        | none => []
        | some m => m
      let m1 :=
        match GoMap.get m0 "like" with
        | none => GoMap.set m0 "like" (some E.NewInteractionContainer)
        | some _ => m0
      let m2 := GoMap.set m1 "like" (some interactionContainer)
      let container := { container with Interactions := some m2 }
      { receiver := c, container := some container, err := none, world := w1 }

end Operations

/-! ## Reading the trace -/

/-- The field mapping a recorded call sent to the store, for an `UpdatePartial` call. -/
def Call.fieldMapping {ι : Type} : Call ι → Option (GoMap Value)
  | Call.UpdatePartial _ set => some set
  | _ => none

/-- The field mappings sent to the store by the recorded calls, oldest first. -/
def sentMappings {ι : Type} (t : List (Call ι)) : List (GoMap Value) :=
  t.filterMap Call.fieldMapping

/-- The interaction kind a recorded call queried, for an interaction lookup. -/
def Call.kind {ι : Type} : Call ι → Option String
  | Call.List _ kind => some kind
  | _ => none

/-- The interaction kinds queried by the recorded calls, oldest first. -/
def queriedKinds {ι : Type} (t : List (Call ι)) : List String :=
  t.filterMap Call.kind

/-! ## Fixtures

Small concrete collaborators over a store that is a table of likes, rows
`(message id, account id)`. -/

/-- A store that accepts every operation and leaves the entity and the table as they are;
its bulk fetch answers one message per requested identifier. -/
def acceptAll : Bongo (List (Int × Int)) where
  Fetch := fun c s => { entity := c, err := none, store := s }
  UpdatePartial := fun c _ s => { entity := c, err := none, store := s }
  Create := fun c s => { entity := c, err := none, store := s }
  Delete := fun c s => { entity := c, err := none, store := s }
  FetchByIds := fun c _ ids s =>
    { entity := c,
      messages := Slice.elems (ids.toList.map fun id => { ChannelMessage.zero with Id := id }),
      err := none, store := s }

/-- A store that fails every operation with `e`; its bulk fetch has already written one
message into the result when it fails. -/
def rejectAll (e : GoError) : Bongo (List (Int × Int)) where
  Fetch := fun c s => { entity := c, err := some e, store := s }
  UpdatePartial := fun c _ s => { entity := c, err := some e, store := s }
  Create := fun c s => { entity := c, err := some e, store := s }
  Delete := fun c s => { entity := c, err := some e, store := s }
  FetchByIds := fun c _ _ s =>
    { entity := c, messages := Slice.elems [ChannelMessage.zero], err := some e, store := s }

/-- A store that accepts every operation and, on a partial update, writes the time of the
update into the entity it was handed by pointer; otherwise as `acceptAll`. -/
def stampingStore : Bongo (List (Int × Int)) where
  Fetch := fun c s => { entity := c, err := none, store := s }
  UpdatePartial := fun c _ s =>
    { entity := { c with UpdatedAt := { wall := 0, ext := 63534003600 } },
      err := none, store := s }
  Create := fun c s => { entity := c, err := none, store := s }
  Delete := fun c s => { entity := c, err := none, store := s }
  FetchByIds := fun c _ ids s =>
    { entity := c,
      messages := Slice.elems (ids.toList.map fun id => { ChannelMessage.zero with Id := id }),
      err := none, store := s }

/-- An environment over the store `B` whose constructors build zero values and whose
lookup answers the accounts of the table rows of the queried message, together with the
error `failure` (nil for a lookup that succeeds). -/
def tableEnv (B : Bongo (List (Int × Int))) (failure : Option GoError) :
    Env (List (Int × Int)) Unit where
  B := B
  NewChannelMessageContainer := { Message := none, Interactions := none }
  NewInteraction := { MessageId := 0, rest := () }
  NewInteractionContainer := { Actors := Slice.nil, IsInteracted := false }
  List := fun i _ s =>
    { actors := Slice.elems ((s.filter fun row => row.1 = i.MessageId).map Prod.snd),
      err := failure, store := s }

/-- The message of the scenario: created with these fields, the store assigned `Id = 42`. -/
def helloMessage : ChannelMessage :=
  { Id := 42, Body := "hello", Type_ := "post", AccountId := 1, InitialChannelId := 10,
    CreatedAt := { wall := 0, ext := 63534000000 },
    UpdatedAt := { wall := 0, ext := 63534000000 } }

/-- A message that was never persisted: every field set but `Id`. -/
def unsavedMessage : ChannelMessage :=
  { Id := 0, Body := "draft", Type_ := "reply", AccountId := 7, InitialChannelId := 3,
    CreatedAt := { wall := 5, ext := 63534000100 },
    UpdatedAt := { wall := 6, ext := 63534000100 } }

/-- A world with the given table of likes and no call made yet. -/
def freshWorld (likes : List (Int × Int)) : World (List (Int × Int)) Unit :=
  { store := likes, trace := [] }

/-! ## Lemmas on maps -/

theorem GoMap.get_set_self {V : Type} (m : GoMap V) (k : String) (v : V) :
    GoMap.get (GoMap.set m k v) k = some v := by
  induction m with
  | nil => simp [GoMap.set, GoMap.get]
  | cons hd tl ih =>
    obtain ⟨k1, v1⟩ := hd
    by_cases h : k1 = k
    · simp [GoMap.set, GoMap.get, h]
    · simp [GoMap.set, GoMap.get, h, ih]

/-! ## FetchRelatives -/

section Theorems

variable {σ ι : Type}

/-- C1: on a message whose Id is 0, whatever its other fields, the collaborators and the
world, FetchRelatives returns a nil container and an error whose text is
"Channel message id is not set", and makes no collaborator call at all (the trace and the
store are as before), so the interaction lookup is not invoked. -/
theorem fetchRelatives_id_not_set (E : Env σ ι) (c : ChannelMessage) (w : World σ ι)
    (hId : c.Id = 0) :
    (c.FetchRelatives E w).container = none ∧
    (c.FetchRelatives E w).err = some (errors.New "Channel message id is not set") ∧
    (c.FetchRelatives E w).err.map GoError.Error = some "Channel message id is not set" ∧
    (c.FetchRelatives E w).world.trace = w.trace ∧
    queriedKinds (c.FetchRelatives E w).world.trace = queriedKinds w.trace ∧
    (c.FetchRelatives E w).world.store = w.store := by
  simp [ChannelMessage.FetchRelatives, hId, errors.New, GoError.Error]

theorem fetchRelatives_id_not_set_witness :
    unsavedMessage.Id = 0 ∧
    (unsavedMessage.FetchRelatives (tableEnv acceptAll none) (freshWorld [(0, 9)])).container
      = none ∧
    (unsavedMessage.FetchRelatives (tableEnv acceptAll none) (freshWorld [(0, 9)])).err
      = some (errors.New "Channel message id is not set") ∧
    (unsavedMessage.FetchRelatives (tableEnv acceptAll none) (freshWorld [(0, 9)])).world.trace
      = [] :=
  ⟨rfl,
   (fetchRelatives_id_not_set (tableEnv acceptAll none) unsavedMessage (freshWorld [(0, 9)])
      rfl).1,
   (fetchRelatives_id_not_set (tableEnv acceptAll none) unsavedMessage (freshWorld [(0, 9)])
      rfl).2.1,
   (fetchRelatives_id_not_set (tableEnv acceptAll none) unsavedMessage (freshWorld [(0, 9)])
      rfl).2.2.2.1⟩

/-- C2: for a message c with non-zero Id, when the lookup on the query built for c succeeds
with actor list L and NewChannelMessageContainer yields a container with no interactions
(a nil or an empty map), FetchRelatives returns a nil error, leaves the receiver as it was,
and returns the container whose Message is c and whose Interactions map has the single key
"like", bound to the InteractionContainer with Actors = L (the same sequence) and
IsInteracted = true. -/
theorem fetchRelatives_success (E : Env σ ι) (c : ChannelMessage) (w : World σ ι)
    (hId : c.Id ≠ 0)
    (hOk : (E.List { E.NewInteraction with MessageId := c.Id } "like" w.store).err = none)
    (hFresh : E.NewChannelMessageContainer.Interactions = none ∨
      E.NewChannelMessageContainer.Interactions = some []) :
    (c.FetchRelatives E w).err = none ∧
    (c.FetchRelatives E w).receiver = c ∧
    (c.FetchRelatives E w).container = some
      { Message := some c,
        Interactions := some [("like", some
          { Actors := (E.List { E.NewInteraction with MessageId := c.Id } "like" w.store).actors,
            IsInteracted := true })] } ∧
    (∃ k m, (c.FetchRelatives E w).container = some k ∧ k.Message = some c ∧
      k.Interactions = some m ∧ GoMap.keys m = ["like"]) := by
  rcases hFresh with h | h <;>
    simp [ChannelMessage.FetchRelatives, hId, hOk, h, GoMap.get, GoMap.set, GoMap.keys]

theorem fetchRelatives_success_witness :
    helloMessage.Id ≠ 0 ∧
    (helloMessage.FetchRelatives (tableEnv acceptAll none)
      (freshWorld [(42, 5), (7, 1), (42, 3)])).container = some
      { Message := some helloMessage,
        Interactions := some [("like", some
          { Actors := Slice.elems [5, 3], IsInteracted := true })] } :=
  ⟨by decide,
   (fetchRelatives_success (tableEnv acceptAll none) helloMessage
      (freshWorld [(42, 5), (7, 1), (42, 3)]) (by decide) rfl (Or.inl rfl)).2.2.1⟩

/-- C3: for a message with non-zero Id, when the lookup on the query built for it returns an
error e, FetchRelatives returns a nil container and exactly e, whatever actor list the
lookup returned alongside e. -/
theorem fetchRelatives_lookup_error (E : Env σ ι) (c : ChannelMessage) (w : World σ ι)
    (e : GoError) (hId : c.Id ≠ 0)
    (hErr : (E.List { E.NewInteraction with MessageId := c.Id } "like" w.store).err = some e) :
    (c.FetchRelatives E w).container = none ∧ (c.FetchRelatives E w).err = some e := by
  simp [ChannelMessage.FetchRelatives, hId, hErr]

theorem fetchRelatives_lookup_error_witness :
    helloMessage.Id ≠ 0 ∧
    ((tableEnv acceptAll (some (errors.New "connection lost"))).List
      { MessageId := 42, rest := () } "like" [(42, 5)]).actors = Slice.elems [5] ∧
    (helloMessage.FetchRelatives (tableEnv acceptAll (some (errors.New "connection lost")))
      (freshWorld [(42, 5)])).container = none ∧
    (helloMessage.FetchRelatives (tableEnv acceptAll (some (errors.New "connection lost")))
      (freshWorld [(42, 5)])).err = some (errors.New "connection lost") :=
  ⟨by decide, rfl,
   fetchRelatives_lookup_error (tableEnv acceptAll (some (errors.New "connection lost")))
      helloMessage (freshWorld [(42, 5)]) (errors.New "connection lost") (by decide) rfl⟩

/-- C6: for a message with non-zero Id whose lookup succeeds, whatever
NewChannelMessageContainer and NewInteractionContainer build, the returned container has
the message as its Message and binds "like" to an InteractionContainer with
IsInteracted = true and with the actor list the lookup returned; in particular, when the
lookup returned an empty list, the actor list is empty and IsInteracted is still true. -/
theorem fetchRelatives_isInteracted (E : Env σ ι) (c : ChannelMessage) (w : World σ ι)
    (hId : c.Id ≠ 0)
    (hOk : (E.List { E.NewInteraction with MessageId := c.Id } "like" w.store).err = none) :
    ∃ k m ic, (c.FetchRelatives E w).container = some k ∧ k.Message = some c ∧
      k.Interactions = some m ∧ GoMap.get m "like" = some (some ic) ∧
      ic.IsInteracted = true ∧
      ic.Actors = (E.List { E.NewInteraction with MessageId := c.Id } "like" w.store).actors ∧
      ((E.List { E.NewInteraction with MessageId := c.Id } "like" w.store).actors.len = 0 →
        ic.Actors.len = 0 ∧ ic.IsInteracted = true) := by
  simp [ChannelMessage.FetchRelatives, hId, hOk, GoMap.get_set_self]

theorem fetchRelatives_isInteracted_witness :
    helloMessage.Id = 42 ∧
    (helloMessage.FetchRelatives (tableEnv acceptAll none) (freshWorld [])).container = some
      { Message := some helloMessage,
        Interactions := some [("like", some
          { Actors := Slice.elems [], IsInteracted := true })] } ∧
    (∃ k m ic,
      (helloMessage.FetchRelatives (tableEnv acceptAll none) (freshWorld [])).container
        = some k ∧ k.Message = some helloMessage ∧
      k.Interactions = some m ∧ GoMap.get m "like" = some (some ic) ∧
      ic.IsInteracted = true ∧
      ic.Actors = ((tableEnv acceptAll none).List
        { (tableEnv acceptAll none).NewInteraction with MessageId := helloMessage.Id }
        "like" (freshWorld []).store).actors ∧
      (((tableEnv acceptAll none).List
        { (tableEnv acceptAll none).NewInteraction with MessageId := helloMessage.Id }
        "like" (freshWorld []).store).actors.len = 0 →
        ic.Actors.len = 0 ∧ ic.IsInteracted = true)) :=
  ⟨rfl, rfl,
   fetchRelatives_isInteracted (tableEnv acceptAll none) helloMessage (freshWorld [])
      (by decide) rfl⟩

/-- C9: for a message c with non-zero Id, FetchRelatives makes exactly one collaborator
call: the interaction lookup, on the query that is the freshly constructed interaction with
MessageId set to c.Id, with kind "like"; so "like" is the only kind queried, and a message
with the same Id makes the same call whatever its other fields. -/
theorem fetchRelatives_one_lookup (E : Env σ ι) (c : ChannelMessage) (w : World σ ι)
    (hId : c.Id ≠ 0) :
    (c.FetchRelatives E w).world.trace
      = w.trace ++ [Call.List { E.NewInteraction with MessageId := c.Id } "like"] ∧
    queriedKinds (c.FetchRelatives E w).world.trace = queriedKinds w.trace ++ ["like"] ∧
    (c.FetchRelatives E w).world.store
      = (E.List { E.NewInteraction with MessageId := c.Id } "like" w.store).store ∧
    (∀ c2 : ChannelMessage, c2.Id = c.Id →
      (c2.FetchRelatives E w).world.trace = (c.FetchRelatives E w).world.trace) := by
  have key : ∀ d : ChannelMessage, d.Id ≠ 0 →
      (d.FetchRelatives E w).world
        = w.record (Call.List { E.NewInteraction with MessageId := d.Id } "like")
            (E.List { E.NewInteraction with MessageId := d.Id } "like" w.store).store := by
    intro d hd
    simp only [ChannelMessage.FetchRelatives, hd, if_false]
    split <;> rfl
  refine ⟨?_, ?_, ?_, ?_⟩
  · rw [key c hId]; rfl
  · rw [key c hId]; simp [World.record, queriedKinds, Call.kind]
  · rw [key c hId]; rfl
  · intro c2 h2
    rw [key c hId, key c2 (h2 ▸ hId), h2]

theorem fetchRelatives_one_lookup_witness :
    helloMessage.Id ≠ 0 ∧
    (helloMessage.FetchRelatives (tableEnv acceptAll none) (freshWorld [(42, 5)])).world.trace
      = [Call.List { MessageId := 42, rest := () } "like"] :=
  ⟨by decide,
   (fetchRelatives_one_lookup (tableEnv acceptAll none) helloMessage (freshWorld [(42, 5)])
      (by decide)).1⟩

/-- C10: FetchRelatives returns an error exactly when the Id is 0 or the lookup on the query
built for the message returns an error; it returns either a container and a nil error or a
nil container and an error; so it succeeds for every non-zero Id (negative ones included)
whose lookup succeeds, and it fails on the message NewChannelMessage returns. -/
theorem fetchRelatives_error_iff (E : Env σ ι) (c : ChannelMessage) (w : World σ ι) :
    ((c.FetchRelatives E w).err ≠ none ↔
      (c.Id = 0 ∨
        (E.List { E.NewInteraction with MessageId := c.Id } "like" w.store).err ≠ none)) ∧
    (((c.FetchRelatives E w).container ≠ none ∧ (c.FetchRelatives E w).err = none) ∨
      ((c.FetchRelatives E w).container = none ∧ (c.FetchRelatives E w).err ≠ none)) ∧
    (c.Id ≠ 0 →
      (E.List { E.NewInteraction with MessageId := c.Id } "like" w.store).err = none →
      (c.FetchRelatives E w).err = none ∧ (c.FetchRelatives E w).container ≠ none) ∧
    (c.Id < 0 →
      (E.List { E.NewInteraction with MessageId := c.Id } "like" w.store).err = none →
      (c.FetchRelatives E w).err = none ∧ (c.FetchRelatives E w).container ≠ none) ∧
    NewChannelMessage.Id = 0 ∧
    (NewChannelMessage.FetchRelatives E w).err ≠ none ∧
    (NewChannelMessage.FetchRelatives E w).container = none := by
  have hNew : NewChannelMessage.Id = 0 := rfl
  have ok : c.Id ≠ 0 →
      (E.List { E.NewInteraction with MessageId := c.Id } "like" w.store).err = none →
      (c.FetchRelatives E w).err = none ∧ (c.FetchRelatives E w).container ≠ none := by
    intro hId hOk
    simp [ChannelMessage.FetchRelatives, hId, hOk]
  refine ⟨?_, ?_, ok, fun hneg => ok (ne_of_lt hneg), hNew, ?_, ?_⟩
  · by_cases hId : c.Id = 0
    · simp [ChannelMessage.FetchRelatives, hId]
    · cases hL : (E.List { E.NewInteraction with MessageId := c.Id } "like" w.store).err with
      | none => simp [ChannelMessage.FetchRelatives, hId, hL]
      | some e => simp [ChannelMessage.FetchRelatives, hId, hL]
  · by_cases hId : c.Id = 0
    · simp [ChannelMessage.FetchRelatives, hId]
    · cases hL : (E.List { E.NewInteraction with MessageId := c.Id } "like" w.store).err with
      | none => simp [ChannelMessage.FetchRelatives, hId, hL]
      | some e => simp [ChannelMessage.FetchRelatives, hId, hL]
  · simp [ChannelMessage.FetchRelatives, hNew]
  · simp [ChannelMessage.FetchRelatives, hNew]

theorem fetchRelatives_error_iff_witness :
    ({ helloMessage with Id := -3 } : ChannelMessage).Id < 0 ∧
    (({ helloMessage with Id := -3 } : ChannelMessage).FetchRelatives
      (tableEnv acceptAll none) (freshWorld [(-3, 8)])).err = none ∧
    (({ helloMessage with Id := -3 } : ChannelMessage).FetchRelatives
      (tableEnv acceptAll none) (freshWorld [(-3, 8)])).container ≠ none :=
  ⟨by decide,
   (fetchRelatives_error_iff (tableEnv acceptAll none) { helloMessage with Id := -3 }
      (freshWorld [(-3, 8)])).2.2.2.1 (by decide) rfl⟩

/-! ## FetchByIds -/

/-- C4: for every receiver, environment and world, FetchByIds on an identifier sequence of
length 0 (nil or empty) returns an empty (nil) message list and a nil error, and makes no
collaborator call: the world, store and trace, is as before, and so is the receiver. -/
theorem fetchByIds_empty (E : Env σ ι) (c : ChannelMessage) (ids : Slice Int)
    (w : World σ ι) (hEmpty : ids.len = 0) :
    (c.FetchByIds E ids w).messages = Slice.nil ∧
    (c.FetchByIds E ids w).messages.len = 0 ∧
    (c.FetchByIds E ids w).err = none ∧
    (c.FetchByIds E ids w).world = w ∧
    (c.FetchByIds E ids w).receiver = c := by
  have h : c.FetchByIds E ids w
      = { receiver := c, messages := Slice.nil, err := none, world := w } := by
    simp only [ChannelMessage.FetchByIds, hEmpty, if_true]
  rw [h]
  exact ⟨rfl, rfl, rfl, rfl, rfl⟩

theorem fetchByIds_empty_witness :
    (Slice.elems [] : Slice Int).len = 0 ∧
    (helloMessage.FetchByIds (tableEnv (rejectAll (errors.New "down")) none) (Slice.elems [])
      (freshWorld [(1, 2)])).messages.len = 0 ∧
    (helloMessage.FetchByIds (tableEnv (rejectAll (errors.New "down")) none) (Slice.elems [])
      (freshWorld [(1, 2)])).err = none ∧
    (helloMessage.FetchByIds (tableEnv (rejectAll (errors.New "down")) none) (Slice.elems [])
      (freshWorld [(1, 2)])).world.trace = [] :=
  ⟨rfl,
   (fetchByIds_empty (tableEnv (rejectAll (errors.New "down")) none) helloMessage
      (Slice.elems []) (freshWorld [(1, 2)]) rfl).2.1,
   (fetchByIds_empty (tableEnv (rejectAll (errors.New "down")) none) helloMessage
      (Slice.elems []) (freshWorld [(1, 2)]) rfl).2.2.1,
   congrArg World.trace
     (fetchByIds_empty (tableEnv (rejectAll (errors.New "down")) none) helloMessage
        (Slice.elems []) (freshWorld [(1, 2)]) rfl).2.2.2.1⟩

/-- C7: for a non-empty identifier sequence ids, FetchByIds makes exactly one collaborator
call, the store's bulk fetch, with the receiver as template, the still nil result slice and
ids as given; if the store returns an error e, FetchByIds returns a nil message list and e,
whatever the store had written into the result; if the store returns no error, FetchByIds
returns the message list the store produced and a nil error. -/
theorem fetchByIds_nonempty (E : Env σ ι) (c : ChannelMessage) (ids : Slice Int)
    (w : World σ ι) (hLen : ids.len ≠ 0) :
    (c.FetchByIds E ids w).world.trace = w.trace ++ [Call.FetchByIds c Slice.nil ids] ∧
    (c.FetchByIds E ids w).world.store = (E.B.FetchByIds c Slice.nil ids w.store).store ∧
    (∀ e, (E.B.FetchByIds c Slice.nil ids w.store).err = some e →
      (c.FetchByIds E ids w).messages = Slice.nil ∧ (c.FetchByIds E ids w).err = some e) ∧
    ((E.B.FetchByIds c Slice.nil ids w.store).err = none →
      (c.FetchByIds E ids w).messages = (E.B.FetchByIds c Slice.nil ids w.store).messages ∧
      (c.FetchByIds E ids w).err = none) := by
  refine ⟨?_, ?_, ?_, ?_⟩
  · simp only [ChannelMessage.FetchByIds, hLen, if_false]
    split <;> rfl
  · simp only [ChannelMessage.FetchByIds, hLen, if_false]
    split <;> rfl
  · intro e he
    simp [ChannelMessage.FetchByIds, hLen, he]
  · intro he
    simp [ChannelMessage.FetchByIds, hLen, he]

theorem fetchByIds_nonempty_witness :
    (Slice.elems [4, 9] : Slice Int).len ≠ 0 ∧
    ((rejectAll (errors.New "down")).FetchByIds helloMessage Slice.nil (Slice.elems [4, 9])
      [(1, 2)]).messages = Slice.elems [ChannelMessage.zero] ∧
    (helloMessage.FetchByIds (tableEnv (rejectAll (errors.New "down")) none)
      (Slice.elems [4, 9]) (freshWorld [(1, 2)])).messages = Slice.nil ∧
    (helloMessage.FetchByIds (tableEnv (rejectAll (errors.New "down")) none)
      (Slice.elems [4, 9]) (freshWorld [(1, 2)])).err = some (errors.New "down") :=
  ⟨by decide, rfl,
   (fetchByIds_nonempty (tableEnv (rejectAll (errors.New "down")) none) helloMessage
      (Slice.elems [4, 9]) (freshWorld [(1, 2)]) (by decide)).2.2.1 (errors.New "down") rfl⟩

/-! ## Update, Create, Fetch, Delete -/

/-- C5, as the code has it: for every message c, Update makes exactly one collaborator
call, UpdatePartial on c, whose field mapping has the single key "body", bound to c.Body;
the mapping sent is the same for every message with the same Body, whatever its Id, Type,
AccountId and InitialChannelId; Update returns the error the store returned, leaves the
store as the store call left it, and assigns no field of c itself: the receiver afterwards
is exactly the entity as the store call, which is handed c by pointer, left it. -/
theorem update_only_body (E : Env σ ι) (c : ChannelMessage) (w : World σ ι) :
    (c.Update E w).world.trace
      = w.trace ++ [Call.UpdatePartial c [("body", Value.string c.Body)]] ∧
    sentMappings (c.Update E w).world.trace
      = sentMappings w.trace ++ [[("body", Value.string c.Body)]] ∧
    GoMap.keys [("body", Value.string c.Body)] = ["body"] ∧
    (∀ c2 : ChannelMessage, c2.Body = c.Body →
      sentMappings (c2.Update E w).world.trace = sentMappings (c.Update E w).world.trace) ∧
    (c.Update E w).err
      = (E.B.UpdatePartial c [("body", Value.string c.Body)] w.store).err ∧
    (c.Update E w).world.store
      = (E.B.UpdatePartial c [("body", Value.string c.Body)] w.store).store ∧
    (c.Update E w).receiver
      = (E.B.UpdatePartial c [("body", Value.string c.Body)] w.store).entity := by
  refine ⟨rfl, ?_, rfl, ?_, rfl, rfl, rfl⟩
  · simp [ChannelMessage.Update, World.record, sentMappings, Call.fieldMapping]
  · intro c2 h2
    simp [ChannelMessage.Update, World.record, sentMappings, Call.fieldMapping, h2]

theorem update_only_body_witness :
    ({ helloMessage with Type_ := "chat", AccountId := 2, InitialChannelId := 11 } :
      ChannelMessage).Body = helloMessage.Body ∧
    sentMappings
      (({ helloMessage with Type_ := "chat", AccountId := 2, InitialChannelId := 11 } :
        ChannelMessage).Update (tableEnv stampingStore none) (freshWorld [])).world.trace
      = sentMappings
          (helloMessage.Update (tableEnv stampingStore none) (freshWorld [])).world.trace ∧
    (helloMessage.Update (tableEnv stampingStore none) (freshWorld [])).world.trace
      = [Call.UpdatePartial helloMessage [("body", Value.string "hello")]] ∧
    (helloMessage.Update (tableEnv stampingStore none) (freshWorld [])).receiver
      = { helloMessage with UpdatedAt := { wall := 0, ext := 63534003600 } } :=
  ⟨rfl,
   (update_only_body (tableEnv stampingStore none) helloMessage (freshWorld [])).2.2.2.1
      { helloMessage with Type_ := "chat", AccountId := 2, InitialChannelId := 11 } rfl,
   (update_only_body (tableEnv stampingStore none) helloMessage (freshWorld [])).1,
   (update_only_body (tableEnv stampingStore none) helloMessage (freshWorld [])).2.2.2.2.2.2⟩

/-- C5 as stated fails in its last clause: Update hands c to the store by pointer, and on a
store whose partial update writes the update time into the entity, the message after
Update differs from the message before it, in its UpdatedAt field, while Id, Body, Type,
AccountId and InitialChannelId are as before. -/
theorem update_receiver_written_by_store :
    (helloMessage.Update (tableEnv stampingStore none) (freshWorld [])).receiver
      ≠ helloMessage ∧
    (helloMessage.Update (tableEnv stampingStore none) (freshWorld [])).receiver.UpdatedAt
      ≠ helloMessage.UpdatedAt ∧
    (helloMessage.Update (tableEnv stampingStore none) (freshWorld [])).err = none ∧
    ¬ (∀ (E : Env (List (Int × Int)) Unit) (c : ChannelMessage)
        (w : World (List (Int × Int)) Unit), (c.Update E w).receiver = c) := by
  refine ⟨by decide, by decide, rfl, ?_⟩
  intro h
  exact absurd (h (tableEnv stampingStore none) helloMessage (freshWorld [])) (by decide)

/-- C8: for every message, environment and world, Create, Fetch and Delete each make
exactly one collaborator call, the store operation of the same name on the receiver, and
return the store's error as it is (so they fail exactly when the store does); none of them
checks the message: on a store that accepts everything, Create of a message with an
unknown Type and an empty Body returns a nil error. -/
theorem create_fetch_delete_delegate (E : Env σ ι) (c : ChannelMessage) (w : World σ ι) :
    ((c.Create E w).world.trace = w.trace ++ [Call.Create c] ∧
      (c.Create E w).err = (E.B.Create c w.store).err ∧
      (c.Create E w).world.store = (E.B.Create c w.store).store ∧
      (c.Create E w).receiver = (E.B.Create c w.store).entity) ∧
    ((c.Fetch E w).world.trace = w.trace ++ [Call.Fetch c] ∧
      (c.Fetch E w).err = (E.B.Fetch c w.store).err ∧
      (c.Fetch E w).world.store = (E.B.Fetch c w.store).store ∧
      (c.Fetch E w).receiver = (E.B.Fetch c w.store).entity) ∧
    ((c.Delete E w).world.trace = w.trace ++ [Call.Delete c] ∧
      (c.Delete E w).err = (E.B.Delete c w.store).err ∧
      (c.Delete E w).world.store = (E.B.Delete c w.store).store ∧
      (c.Delete E w).receiver = (E.B.Delete c w.store).entity) ∧
    (({ c with Type_ := "banner", Body := "" } : ChannelMessage).Create
      (tableEnv acceptAll none) (freshWorld [])).err = none :=
  ⟨⟨rfl, rfl, rfl, rfl⟩, ⟨rfl, rfl, rfl, rfl⟩, ⟨rfl, rfl, rfl, rfl⟩, rfl⟩

end Theorems

end models
